import Mathlib

/-
  Shallow embedding of the KT0915 AM/FM receiver driver (src/KT0915.cpp).

  The in-memory receiver state (mode, current frequency, current step, band
  limits, dial-mode flag) and the register operations are translated from the
  source.  Bus traffic is modelled as a transcript: a list of register reads
  and register writes; register reads are supplied by an oracle
  dev : Reg -> Nat standing for the device register file.

  The companion header KT0915.h (bit-field layouts, register addresses,
  numeric constants of the enums) is not part of the repository sources;
  where such detail is needed it is modelled from the spec and marked so in
  the doc comment of the relevant definition.
-/

namespace KT0915

/-- Unsigned 32-bit wrap, the arithmetic of the uint32 member fields. -/
def u32 (n : Nat) : Nat := n % 2 ^ 32

/-- Unsigned 16-bit wrap, the arithmetic of the uint16 member fields. -/
def u16 (n : Nat) : Nat := n % 2 ^ 16

/-- Unsigned 8-bit wrap. -/
def u8 (n : Nat) : Nat := n % 2 ^ 8

/-- Receiver mode, MODE_AM or MODE_FM in the source. -/
inductive Mode
  | am
  | fm
deriving DecidableEq

/-- Dial-mode flag, DIAL_MODE_ON or DIAL_MODE_OFF in the source. -/
inductive DialMode
  | off
  | on
deriving DecidableEq

/-- The named device registers touched by the driver.  The numeric register
addresses live in the missing header; only their identity matters here. -/
inductive Reg
  | chip_id
  | statusa
  | amsyscfg
  | gpiocfg
  | amcali
  | amchan
  | tune
  | userstartch
  | userguard
  | userchannum
deriving DecidableEq

/-- A register write with the structured payload the driver assembles. -/
inductive RegWrite
  | amsyscfg (raw : Nat)
  | gpiocfg (raw : Nat)
  | amcali (cap_index : Nat)
  | amchan (amtune : Nat) (chan : Nat)
  | tune (fmtune : Nat) (fmchan : Nat)
  | userstartch (start_chan : Nat)
  | userguard (guard : Nat)
  | userchannum (chan_num : Nat)
deriving DecidableEq

/-- One bus transaction at register granularity. -/
inductive BusOp
  | read (r : Reg)
  | write (w : RegWrite)
deriving DecidableEq

/-- Is the bus operation a register read. -/
def isRead : BusOp → Bool
  | BusOp.read _ => true
  | BusOp.write _ => false

/-- The in-memory fields of the KT0915 class.  currentFrequency and the band
limits are uint32, currentStep is uint16, resetPin is int. -/
structure State where
  deviceAddress : Nat
  resetPin : Int
  currentMode : Mode
  currentFrequency : Nat
  currentStep : Nat
  minimumFrequency : Nat
  maximumFrequency : Nat
  currentDialMode : DialMode
deriving DecidableEq

/-- Modelled from the spec: the bit-field layout of the AM-system-config
register comes from the missing KT0915.h header.  The spec names the fields
AM/FM select, user-band enable, crystal-type (ten enumerated values 0-9,
hence four bits) and reference-clock-enable; a concrete disjoint 16-bit
layout is fixed here: bits 0-2 reserved, bit 3 RCLK_EN, bits 4-7 REFCLK,
bits 8-13 reserved, bit 14 USERBAND, bit 15 AM_FM. -/
structure AmsyscfgFields where
  reserved_low : Nat
  rclk_en : Nat
  refclk : Nat
  reserved_mid : Nat
  userband : Nat
  am_fm : Nat
deriving DecidableEq

/-- Bit-field view of a raw AM-system-config value. -/
def decodeAmsyscfg (raw : Nat) : AmsyscfgFields :=
  { reserved_low := raw % 8
    rclk_en := raw / 8 % 2
    refclk := raw / 16 % 16
    reserved_mid := raw / 256 % 64
    userband := raw / 16384 % 2
    am_fm := raw / 32768 % 2 }

/-- Raw value of a bit-field view; each field is reduced to its width, the
semantics of a C bit-field assignment. -/
def encodeAmsyscfg (f : AmsyscfgFields) : Nat :=
  f.reserved_low % 8 + f.rclk_en % 2 * 8 + f.refclk % 16 * 16 +
    f.reserved_mid % 64 * 256 + f.userband % 2 * 16384 + f.am_fm % 2 * 32768

/-- Modelled from the spec: layout of the GPIO-config register (fields GPIO1
and GPIO2, two-bit function selectors) from the missing header: bits 0-1
GPIO1, bits 2-3 GPIO2, bits 4-15 reserved. -/
structure GpiocfgFields where
  gpio1 : Nat
  gpio2 : Nat
  reserved : Nat
deriving DecidableEq

/-- Bit-field view of a raw GPIO-config value. -/
def decodeGpiocfg (raw : Nat) : GpiocfgFields :=
  { gpio1 := raw % 4
    gpio2 := raw / 4 % 4
    reserved := raw / 16 % 4096 }

/-- Raw value of a GPIO-config bit-field view. -/
def encodeGpiocfg (f : GpiocfgFields) : Nat :=
  f.gpio1 % 4 + f.gpio2 % 4 * 4 + f.reserved % 4096 * 16

/-- Modelled from the spec: the numeric codes of MODE_AM and MODE_FM come
from the missing header; the AM/FM-select field is written with the code of
the selected mode.  The exact code values do not matter to any claim. -/
def modeBit : Mode → Nat
  | Mode.am => 1
  | Mode.fm => 0

/-- The AM-system-config value written by setAM and setFM: the value read
from the device with the AM/FM-select field set to the new mode and the
user-band bit cleared. -/
def modeSyscfgRaw (raw : Nat) (m : Mode) : Nat :=
  encodeAmsyscfg { decodeAmsyscfg (u16 raw) with am_fm := modeBit m, userband := 0 }

/-- Modelled from the spec: field layouts of the AM-channel and FM-tune
registers come from the missing header; the spec gives fields tune-enable
and channel value, recorded here as a structured payload.  AM writes the
frequency verbatim with AMTUNE set; FM writes frequency / 50 with FMTUNE
set. -/
def tuneWrite (m : Mode) (frequency : Nat) : BusOp :=
  match m with
  | Mode.am => BusOp.write (RegWrite.amchan 1 frequency)
  | Mode.fm => BusOp.write (RegWrite.tune 1 (frequency / 50))

/-- KT0915::setFrequency: dispatch on the current mode, write the tune
register, store the requested frequency unconditionally. -/
def setFrequency (s : State) (frequency : Nat) : State × List BusOp :=
  ({ s with currentFrequency := u32 frequency },
   [tuneWrite s.currentMode (u32 frequency)])

/-- KT0915::frequencyUp: add the step with uint32 wrap, drop to the minimum
when the result exceeds the maximum, then delegate to setFrequency. -/
def frequencyUp (s : State) : State × List BusOp :=
  let f0 := u32 (s.currentFrequency + u16 s.currentStep)
  let f1 := if s.maximumFrequency < f0 then s.minimumFrequency else f0
  setFrequency { s with currentFrequency := f1 } f1

/-- KT0915::frequencyDown: subtract the step with uint32 wrap, jump to the
maximum when the result is below the minimum, then delegate to
setFrequency. -/
def frequencyDown (s : State) : State × List BusOp :=
  let f0 := u32 (s.currentFrequency + (2 ^ 32 - u16 s.currentStep))
  let f1 := if f0 < s.minimumFrequency then s.maximumFrequency else f0
  setFrequency { s with currentFrequency := f1 } f1

/-- KT0915::setAM: store the band parameters and mode, read-modify-write
the system config register (mode select set, user-band bit cleared), then
tune to the default frequency. -/
def setAM (s : State) (dev : Reg → Nat)
    (minimum_frequency maximum_frequency default_frequency step : Nat) :
    State × List BusOp :=
  let s1 : State :=
    { s with
      currentStep := u16 step
      currentFrequency := u32 default_frequency
      minimumFrequency := u32 minimum_frequency
      maximumFrequency := u32 maximum_frequency
      currentMode := Mode.am }
  let raw2 := modeSyscfgRaw (dev Reg.amsyscfg) Mode.am
  let r := setFrequency s1 (u32 default_frequency)
  (r.1, BusOp.read Reg.amsyscfg :: BusOp.write (RegWrite.amsyscfg raw2) :: r.2)

/-- KT0915::setFM: store the band parameters and mode, read-modify-write
the system config register (mode select set, user-band bit cleared), then
tune to the default frequency. -/
def setFM (s : State) (dev : Reg → Nat)
    (minimum_frequency maximum_frequency default_frequency step : Nat) :
    State × List BusOp :=
  let s1 : State :=
    { s with
      currentStep := u16 step
      currentFrequency := u32 default_frequency
      minimumFrequency := u32 minimum_frequency
      maximumFrequency := u32 maximum_frequency
      currentMode := Mode.fm }
  let raw2 := modeSyscfgRaw (dev Reg.amsyscfg) Mode.fm
  let r := setFrequency s1 (u32 default_frequency)
  (r.1, BusOp.read Reg.amsyscfg :: BusOp.write (RegWrite.amsyscfg raw2) :: r.2)

/-- KT0915::setTuneDialModeOn: set the dial-mode flag and user-band bit,
route GPIO1 to the dial interface, then write the user-band start channel,
guard value and channel count; the encoding of the last three depends on
the current mode.  Field widths of the three user-band registers come from
the missing header and are modelled from the spec as taking the computed
values. -/
def setTuneDialModeOn (s : State) (dev : Reg → Nat)
    (minimu_frequency maximum_frequency : Nat) : State × List BusOp :=
  let minf := u32 minimu_frequency
  let maxf := u32 maximum_frequency
  let s1 : State := { s with currentDialMode := DialMode.on }
  let rawA := encodeAmsyscfg { decodeAmsyscfg (u16 (dev Reg.amsyscfg)) with userband := 1 }
  let rawG := encodeGpiocfg { decodeGpiocfg (u16 (dev Reg.gpiocfg)) with gpio1 := 2 }
  let band :=
    match s1.currentMode with
    | Mode.am => (minf, 0x0011, u32 (maxf + (2 ^ 32 - minf)) / u16 s1.currentStep)
    | Mode.fm => (minf / 50, 0x001D, u32 (maxf + (2 ^ 32 - minf)) / 50 / u16 s1.currentStep)
  (s1,
   [BusOp.read Reg.amsyscfg, BusOp.write (RegWrite.amsyscfg rawA),
    BusOp.read Reg.gpiocfg, BusOp.write (RegWrite.gpiocfg rawG),
    BusOp.write (RegWrite.userstartch band.1),
    BusOp.write (RegWrite.userguard band.2.1),
    BusOp.write (RegWrite.userchannum band.2.2)])

/-- The AM-system-config value written by setReferenceClockType: the value
read from the device with only the crystal-type field and the
reference-clock-enable bit replaced. -/
def setReferenceClockTypeRaw (raw crystal ref_clock : Nat) : Nat :=
  encodeAmsyscfg
    { decodeAmsyscfg (u16 raw) with refclk := u8 crystal, rclk_en := u8 ref_clock }

/-- KT0915::setReferenceClockType: one read of the system config register
followed by one write of the modified value. -/
def setReferenceClockType (dev : Reg → Nat) (crystal ref_clock : Nat) : List BusOp :=
  [BusOp.read Reg.amsyscfg,
   BusOp.write (RegWrite.amsyscfg
     (setReferenceClockTypeRaw (dev Reg.amsyscfg) crystal ref_clock))]

/-- KT0915::setAntennaTuneCapacitor: one write of the AM-calibration
register assembled from scratch; no register is read (the dev oracle is
never consulted).  The CAP_INDEX field width comes from the missing header;
the source doc comment gives the range 0 to 16383, hence 14 bits. -/
def setAntennaTuneCapacitor (dev : Reg → Nat) (capacitor : Nat) : List BusOp :=
  [BusOp.write (RegWrite.amcali (u16 capacitor % 2 ^ 14))]

/-- One host GPIO or timing action issued by reset. -/
inductive GpioEvent
  | pinMode (pin : Int) (mode : Nat)
  | digitalWrite (pin : Int) (level : Nat)
  | delayMs (ms : Nat)
deriving DecidableEq

/-- Arduino pin-mode constant OUTPUT. -/
def OUTPUT : Nat := 1

/-- Arduino level constant LOW. -/
def LOW : Nat := 0

/-- Arduino level constant HIGH. -/
def HIGH : Nat := 1

/-- KT0915::reset as its GPIO transcript: nothing when the reset pin is
negative, otherwise mode set, low write and high write, each followed by a
10 ms delay. -/
def reset (resetPin : Int) : List GpioEvent :=
  if resetPin < 0 then []
  else
    [GpioEvent.pinMode resetPin OUTPUT, GpioEvent.delayMs 10,
     GpioEvent.digitalWrite resetPin LOW, GpioEvent.delayMs 10,
     GpioEvent.digitalWrite resetPin HIGH, GpioEvent.delayMs 10]

/-- One I2C bus action at byte granularity. -/
inductive I2CEvent
  | beginTransmission (addr : Nat)
  | writeByte (b : Nat)
  | endTransmission
  | requestFrom (addr : Nat) (n : Nat)
  | readByte
deriving DecidableEq

/-- High byte of a 16-bit word; the word16_to_bytes decomposition is
modelled from the spec since the union lives in the missing header. -/
def highByte (v : Nat) : Nat := v / 256 % 256

/-- Low byte of a 16-bit word. -/
def lowByte (v : Nat) : Nat := v % 256

/-- KT0915::setRegister as its byte-level I2C transcript: address byte,
high byte, low byte. -/
def setRegister (deviceAddress reg parameter : Nat) : List I2CEvent :=
  [I2CEvent.beginTransmission deviceAddress,
   I2CEvent.writeByte (u8 reg),
   I2CEvent.writeByte (highByte (u16 parameter)),
   I2CEvent.writeByte (lowByte (u16 parameter)),
   I2CEvent.endTransmission]

/-- KT0915::getRegister as its byte-level I2C transcript: address write,
then a two-byte read request. -/
def getRegisterEvents (deviceAddress reg : Nat) : List I2CEvent :=
  [I2CEvent.beginTransmission deviceAddress,
   I2CEvent.writeByte (u8 reg),
   I2CEvent.endTransmission,
   I2CEvent.requestFrom deviceAddress 2,
   I2CEvent.readByte, I2CEvent.readByte]

/-- The 16-bit value KT0915::getRegister combines from the two received
bytes: the first byte becomes the low byte, the second the high byte. -/
def getRegisterValue (firstByte secondByte : Nat) : Nat :=
  u8 secondByte * 256 + u8 firstByte

/-- The data bytes pushed on the bus by a transcript, in order. -/
def writtenBytes (events : List I2CEvent) : List Nat :=
  events.filterMap fun e =>
    match e with
    | I2CEvent.writeByte b => some b
    | _ => none

/-- KT0915::getFrequency: returns the in-memory current frequency. -/
def getFrequency (s : State) : Nat := s.currentFrequency

/-- KT0915::setStep: stores the step. -/
def setStep (s : State) (step : Nat) : State := { s with currentStep := u16 step }

/-- The in-memory current frequency lies inside the configured band. -/
def inRange (s : State) : Prop :=
  s.minimumFrequency ≤ s.currentFrequency ∧ s.currentFrequency ≤ s.maximumFrequency

instance (s : State) : Decidable (inRange s) :=
  inferInstanceAs
    (Decidable (s.minimumFrequency ≤ s.currentFrequency ∧
      s.currentFrequency ≤ s.maximumFrequency))

/-- Wrapped 32-bit subtraction agrees with plain subtraction on an ordered
pair of 32-bit values. -/
theorem u32_sub_of_le (a b : Nat) (hab : a ≤ b) (hb : b < 2 ^ 32) :
    u32 (u32 b + (2 ^ 32 - u32 a)) = b - a := by
  unfold u32
  omega

/-- Decoding an encoded AM-system-config view recovers every field reduced
to its width. -/
theorem decodeAmsyscfg_encodeAmsyscfg (f : AmsyscfgFields) :
    decodeAmsyscfg (encodeAmsyscfg f) =
      { reserved_low := f.reserved_low % 8
        rclk_en := f.rclk_en % 2
        refclk := f.refclk % 16
        reserved_mid := f.reserved_mid % 64
        userband := f.userband % 2
        am_fm := f.am_fm % 2 } := by
  obtain ⟨rl, rc, rf, rm, ub, af⟩ := f
  simp only [decodeAmsyscfg, encodeAmsyscfg, AmsyscfgFields.mk.injEq]
  refine ⟨?_, ?_, ?_, ?_, ?_, ?_⟩ <;> omega

/-- C7: reset issues no pin-mode change and no pin transition when the
configured reset pin is negative; when the pin is nonnegative it sets the
pin to output, drives it low then high, with a 10 ms delay after the mode
set, after the low write and after the high write. -/
theorem reset_pin_transcript (p : Int) :
    (p < 0 → reset p = []) ∧
    (0 ≤ p → reset p =
      [GpioEvent.pinMode p OUTPUT, GpioEvent.delayMs 10,
       GpioEvent.digitalWrite p LOW, GpioEvent.delayMs 10,
       GpioEvent.digitalWrite p HIGH, GpioEvent.delayMs 10]) := by
  constructor
  · intro h
    simp [reset, h]
  · intro h
    simp [reset, not_lt.mpr h]

/-- C7 witness: both branches of the reset contract at concrete pins. -/
theorem reset_pin_transcript_witness :
    reset (-1) = [] ∧
    reset 12 =
      [GpioEvent.pinMode 12 OUTPUT, GpioEvent.delayMs 10,
       GpioEvent.digitalWrite 12 LOW, GpioEvent.delayMs 10,
       GpioEvent.digitalWrite 12 HIGH, GpioEvent.delayMs 10] :=
  ⟨(reset_pin_transcript (-1)).1 (by decide),
   (reset_pin_transcript 12).2 (by decide)⟩

/-- C8: setRegister pushes the register address byte, then the high byte,
then the low byte of the value; getRegister combines the two received bytes
taking the first as the low byte and the second as the high byte. -/
theorem register_byte_order (addr reg value b1 b2 : Nat)
    (hr : reg < 256) (hv : value < 2 ^ 16) (h1 : b1 < 256) (h2 : b2 < 256) :
    writtenBytes (setRegister addr reg value) = [reg, highByte value, lowByte value] ∧
    lowByte (getRegisterValue b1 b2) = b1 ∧
    highByte (getRegisterValue b1 b2) = b2 ∧
    getRegisterEvents addr reg =
      [I2CEvent.beginTransmission addr, I2CEvent.writeByte reg,
       I2CEvent.endTransmission, I2CEvent.requestFrom addr 2,
       I2CEvent.readByte, I2CEvent.readByte] := by
  have e1 : u8 reg = reg := by
    unfold u8
    omega
  have e2 : u16 value = value := by
    unfold u16
    omega
  refine ⟨?_, ?_, ?_, ?_⟩
  · simp [writtenBytes, setRegister, e1, e2]
  · unfold getRegisterValue lowByte u8
    omega
  · unfold getRegisterValue highByte u8
    omega
  · simp [getRegisterEvents, e1]

/-- C8 witness: the byte order contract at a concrete write and read. -/
theorem register_byte_order_witness :
    writtenBytes (setRegister 53 22 4660) = [22, 18, 52] ∧
    lowByte (getRegisterValue 52 18) = 52 ∧
    highByte (getRegisterValue 52 18) = 18 ∧
    getRegisterEvents 53 22 =
      [I2CEvent.beginTransmission 53, I2CEvent.writeByte 22,
       I2CEvent.endTransmission, I2CEvent.requestFrom 53 2,
       I2CEvent.readByte, I2CEvent.readByte] :=
  register_byte_order 53 22 4660 52 18 (by decide) (by decide) (by decide) (by decide)

/-- C10: setAntennaTuneCapacitor issues exactly one register write and no
register read, and the written payload is computed from the capacitor
argument alone, independent of the device register contents. -/
theorem antenna_capacitor_single_write (dev dev2 : Reg → Nat) (capacitor : Nat) :
    setAntennaTuneCapacitor dev capacitor = setAntennaTuneCapacitor dev2 capacitor ∧
    setAntennaTuneCapacitor dev capacitor =
      [BusOp.write (RegWrite.amcali (u16 capacitor % 2 ^ 14))] ∧
    (setAntennaTuneCapacitor dev capacitor).length = 1 ∧
    ((setAntennaTuneCapacitor dev capacitor).filter isRead).length = 0 :=
  ⟨rfl, rfl, rfl, rfl⟩

/-- C6: setReferenceClockType performs a read-modify-write of the system
config register that changes only the crystal-type field and the
reference-clock-enable bit; the AM/FM-select bit, the user-band bit and all
reserved bits keep the value read from the device at the start of the
call. -/
theorem reference_clock_frame (dev : Reg → Nat) (crystal ref_clock : Nat) :
    setReferenceClockType dev crystal ref_clock =
      [BusOp.read Reg.amsyscfg,
       BusOp.write (RegWrite.amsyscfg
         (setReferenceClockTypeRaw (dev Reg.amsyscfg) crystal ref_clock))] ∧
    (decodeAmsyscfg (setReferenceClockTypeRaw (dev Reg.amsyscfg) crystal ref_clock)).am_fm =
      (decodeAmsyscfg (u16 (dev Reg.amsyscfg))).am_fm ∧
    (decodeAmsyscfg (setReferenceClockTypeRaw (dev Reg.amsyscfg) crystal ref_clock)).userband =
      (decodeAmsyscfg (u16 (dev Reg.amsyscfg))).userband ∧
    (decodeAmsyscfg (setReferenceClockTypeRaw (dev Reg.amsyscfg) crystal ref_clock)).reserved_low =
      (decodeAmsyscfg (u16 (dev Reg.amsyscfg))).reserved_low ∧
    (decodeAmsyscfg (setReferenceClockTypeRaw (dev Reg.amsyscfg) crystal ref_clock)).reserved_mid =
      (decodeAmsyscfg (u16 (dev Reg.amsyscfg))).reserved_mid ∧
    (decodeAmsyscfg (setReferenceClockTypeRaw (dev Reg.amsyscfg) crystal ref_clock)).refclk =
      u8 crystal % 16 ∧
    (decodeAmsyscfg (setReferenceClockTypeRaw (dev Reg.amsyscfg) crystal ref_clock)).rclk_en =
      u8 ref_clock % 2 := by
  constructor
  · rfl
  · generalize dev Reg.amsyscfg = raw
    simp only [setReferenceClockTypeRaw, decodeAmsyscfg_encodeAmsyscfg]
    refine ⟨?_, ?_, ?_, ?_, ?_, ?_⟩ <;>
      simp only [decodeAmsyscfg, u16, u8] <;>
      omega

/-- C9: setFM and setAM clear the user-band bit in the written system
config value but do not touch the in-memory dial-mode flag, so after
setTuneDialModeOn the flag still reads on following a setFM or setAM. -/
theorem dial_flag_survives_mode_set (s : State) (dev dev1 : Reg → Nat)
    (a b mn mx d st raw : Nat) :
    (setFM s dev1 mn mx d st).1.currentDialMode = s.currentDialMode ∧
    (setAM s dev1 mn mx d st).1.currentDialMode = s.currentDialMode ∧
    (setFM (setTuneDialModeOn s dev a b).1 dev1 mn mx d st).1.currentDialMode =
      DialMode.on ∧
    (setAM (setTuneDialModeOn s dev a b).1 dev1 mn mx d st).1.currentDialMode =
      DialMode.on ∧
    (setFM s dev1 mn mx d st).2.take 2 =
      [BusOp.read Reg.amsyscfg,
       BusOp.write (RegWrite.amsyscfg (modeSyscfgRaw (dev1 Reg.amsyscfg) Mode.fm))] ∧
    (setAM s dev1 mn mx d st).2.take 2 =
      [BusOp.read Reg.amsyscfg,
       BusOp.write (RegWrite.amsyscfg (modeSyscfgRaw (dev1 Reg.amsyscfg) Mode.am))] ∧
    (decodeAmsyscfg (modeSyscfgRaw raw Mode.fm)).userband = 0 ∧
    (decodeAmsyscfg (modeSyscfgRaw raw Mode.am)).userband = 0 := by
  refine ⟨rfl, rfl, rfl, rfl, rfl, rfl, ?_, ?_⟩ <;>
    simp only [modeSyscfgRaw, decodeAmsyscfg_encodeAmsyscfg]

/-- C1 counterexample: setAM with a default frequency outside the requested
band leaves the in-memory current frequency outside [min, max]; the claim
quantifies over all argument values, and no tune operation clamps. -/
theorem tune_ops_in_range_counterexample :
    ¬ inRange (setAM
        { deviceAddress := 0, resetPin := -1, currentMode := Mode.am,
          currentFrequency := 0, currentStep := 0, minimumFrequency := 0,
          maximumFrequency := 0, currentDialMode := DialMode.off }
        (fun _ => 0) 520 1710 5000 10).1 := by
  decide

/-- C1 (amended): every tune operation leaves the current frequency inside
[minimumFrequency, maximumFrequency] provided the requested or default
frequency lies inside the band and the 32-bit step arithmetic of
frequencyUp and frequencyDown does not wrap modulo 2 to the 32. -/
theorem tune_ops_in_range (s : State) (dev : Reg → Nat) (mn mx d st : Nat)
    (h1 : u32 mn ≤ u32 d) (h2 : u32 d ≤ u32 mx)
    (h3 : s.minimumFrequency ≤ u32 d) (h4 : u32 d ≤ s.maximumFrequency)
    (h5 : s.minimumFrequency ≤ s.currentFrequency)
    (h6 : s.currentFrequency ≤ s.maximumFrequency)
    (h7 : s.maximumFrequency < 2 ^ 32)
    (h8 : s.currentFrequency + u16 s.currentStep < 2 ^ 32)
    (h9 : u16 s.currentStep ≤ s.currentFrequency) :
    inRange (setAM s dev mn mx d st).1 ∧
    inRange (setFM s dev mn mx d st).1 ∧
    inRange (setFrequency s d).1 ∧
    inRange (frequencyUp s).1 ∧
    inRange (frequencyDown s).1 := by
  simp only [u32, u16] at h1 h2 h3 h4 h8 h9
  refine ⟨?_, ?_, ?_, ?_, ?_⟩
  · simp [setAM, setFrequency, inRange, u32, u16]
    omega
  · simp [setFM, setFrequency, inRange, u32, u16]
    omega
  · simp [setFrequency, inRange, u32]
    omega
  · simp [frequencyUp, setFrequency, inRange, u32, u16]
    split <;> omega
  · simp [frequencyDown, setFrequency, inRange, u32, u16]
    split <;> omega

/-- C1 witness: the amended invariant at a concrete state and band. -/
theorem tune_ops_in_range_witness :
    inRange (setAM
      { deviceAddress := 0, resetPin := -1, currentMode := Mode.am,
        currentFrequency := 1000, currentStep := 10, minimumFrequency := 520,
        maximumFrequency := 1710, currentDialMode := DialMode.off }
      (fun _ => 0) 520 1710 600 10).1 ∧
    inRange (frequencyUp
      { deviceAddress := 0, resetPin := -1, currentMode := Mode.am,
        currentFrequency := 1000, currentStep := 10, minimumFrequency := 520,
        maximumFrequency := 1710, currentDialMode := DialMode.off }).1 ∧
    inRange (frequencyDown
      { deviceAddress := 0, resetPin := -1, currentMode := Mode.am,
        currentFrequency := 1000, currentStep := 10, minimumFrequency := 520,
        maximumFrequency := 1710, currentDialMode := DialMode.off }).1 := by
  have h := tune_ops_in_range
    { deviceAddress := 0, resetPin := -1, currentMode := Mode.am,
      currentFrequency := 1000, currentStep := 10, minimumFrequency := 520,
      maximumFrequency := 1710, currentDialMode := DialMode.off }
    (fun _ => 0) 520 1710 600 10
    (by decide) (by decide) (by decide) (by decide) (by decide)
    (by decide) (by decide) (by decide) (by decide)
  exact ⟨h.1, h.2.2.2.1, h.2.2.2.2⟩

/-- C2 counterexample: at frequency 10, step 20, band [0, 100], the
mathematical difference 10 - 20 is below the minimum, so the claim demands
the frequency be set to the maximum 100; the code instead compares the
wrapped unsigned difference and stores 2 to the 32 minus 10. -/
theorem frequencyDown_wrap_counterexample :
    ((10 : Int) - 20 < 0) ∧
    (frequencyDown
      { deviceAddress := 0, resetPin := -1, currentMode := Mode.am,
        currentFrequency := 10, currentStep := 20, minimumFrequency := 0,
        maximumFrequency := 100, currentDialMode := DialMode.off }).1.currentFrequency =
      4294967286 ∧
    (4294967286 : Nat) ≠ 100 := by
  refine ⟨by decide, by decide, by decide⟩

/-- C2 (amended): frequencyDown computes the wrapped 32-bit difference
d = (f - s) mod 2 to the 32 and sets the frequency to max exactly when d,
the wrapped value rather than the mathematical difference, is below min,
and to d otherwise. -/
theorem frequencyDown_wrap (s : State)
    (hf : s.currentFrequency < 2 ^ 32)
    (hmin : s.minimumFrequency ≤ s.currentFrequency)
    (hmax : s.currentFrequency ≤ s.maximumFrequency)
    (hM : s.maximumFrequency < 2 ^ 32) :
    ((u32 (s.currentFrequency + (2 ^ 32 - u16 s.currentStep)) : Int) =
        ((s.currentFrequency : Int) - (u16 s.currentStep : Int)) % 2 ^ 32) ∧
    (u32 (s.currentFrequency + (2 ^ 32 - u16 s.currentStep)) < s.minimumFrequency →
        (frequencyDown s).1.currentFrequency = s.maximumFrequency) ∧
    (s.minimumFrequency ≤ u32 (s.currentFrequency + (2 ^ 32 - u16 s.currentStep)) →
        (frequencyDown s).1.currentFrequency =
          u32 (s.currentFrequency + (2 ^ 32 - u16 s.currentStep))) := by
  refine ⟨?_, ?_, ?_⟩
  · simp only [u32, u16]
    omega
  · intro h
    simp only [u32, u16] at h
    simp [frequencyDown, setFrequency, u32, u16]
    split <;> omega
  · intro h
    simp only [u32, u16] at h
    simp [frequencyDown, setFrequency, u32, u16]
    split <;> omega

/-- C2 witness: a concrete in-band decrement away from the wrap region. -/
theorem frequencyDown_wrap_witness :
    (frequencyDown
      { deviceAddress := 0, resetPin := -1, currentMode := Mode.am,
        currentFrequency := 1000, currentStep := 10, minimumFrequency := 520,
        maximumFrequency := 1710, currentDialMode := DialMode.off }).1.currentFrequency =
      990 := by
  have h := (frequencyDown_wrap
    { deviceAddress := 0, resetPin := -1, currentMode := Mode.am,
      currentFrequency := 1000, currentStep := 10, minimumFrequency := 520,
      maximumFrequency := 1710, currentDialMode := DialMode.off }
    (by decide) (by decide) (by decide) (by decide)).2.2 (by decide)
  rw [h]
  decide

/-- C3 counterexample: at frequency 2 to the 32 minus 1, step 2, band
[100, 2 to the 32 minus 1], the mathematical sum exceeds the maximum, so
the claim demands the frequency be set to the minimum 100; the code
compares the wrapped unsigned sum 1 instead and stores 1. -/
theorem frequencyUp_wrap_counterexample :
    (4294967295 + 2 > 4294967295) ∧
    (frequencyUp
      { deviceAddress := 0, resetPin := -1, currentMode := Mode.am,
        currentFrequency := 4294967295, currentStep := 2, minimumFrequency := 100,
        maximumFrequency := 4294967295, currentDialMode := DialMode.off }).1.currentFrequency =
      1 ∧
    (1 : Nat) ≠ 100 := by
  refine ⟨by decide, by decide, by decide⟩

/-- C3 (amended): frequencyUp computes the wrapped 32-bit sum
d = (f + s) mod 2 to the 32 and sets the frequency to min exactly when d,
the wrapped value rather than the mathematical sum, exceeds max, and to d
otherwise; whenever min is at most max the result never exceeds max. -/
theorem frequencyUp_wrap (s : State)
    (hm : s.minimumFrequency < 2 ^ 32) :
    ((u32 (s.currentFrequency + u16 s.currentStep) : Int) =
        ((s.currentFrequency : Int) + (u16 s.currentStep : Int)) % 2 ^ 32) ∧
    (s.maximumFrequency < u32 (s.currentFrequency + u16 s.currentStep) →
        (frequencyUp s).1.currentFrequency = s.minimumFrequency) ∧
    (u32 (s.currentFrequency + u16 s.currentStep) ≤ s.maximumFrequency →
        (frequencyUp s).1.currentFrequency =
          u32 (s.currentFrequency + u16 s.currentStep)) ∧
    (s.minimumFrequency ≤ s.maximumFrequency →
        (frequencyUp s).1.currentFrequency ≤ s.maximumFrequency) := by
  simp only [u32, u16] at hm ⊢
  refine ⟨?_, ?_, ?_, ?_⟩
  · omega
  · intro h
    simp [frequencyUp, setFrequency, u32, u16]
    split <;> omega
  · intro h
    simp [frequencyUp, setFrequency, u32, u16]
    split <;> omega
  · intro h
    simp [frequencyUp, setFrequency, u32, u16]
    split <;> omega

/-- C3 witness: a concrete in-band increment away from the wrap region. -/
theorem frequencyUp_wrap_witness :
    (frequencyUp
      { deviceAddress := 0, resetPin := -1, currentMode := Mode.am,
        currentFrequency := 1000, currentStep := 10, minimumFrequency := 520,
        maximumFrequency := 1710, currentDialMode := DialMode.off }).1.currentFrequency =
      1010 := by
  have h := (frequencyUp_wrap
    { deviceAddress := 0, resetPin := -1, currentMode := Mode.am,
      currentFrequency := 1000, currentStep := 10, minimumFrequency := 520,
      maximumFrequency := 1710, currentDialMode := DialMode.off }
    (by decide)).2.2.1 (by decide)
  rw [h]
  decide

/-- C4: after setAM the in-memory frequency accessor returns the default
verbatim and the AM channel write carries the default verbatim; after setFM
the accessor also returns the default while the FM tune write carries the
default divided by 50. -/
theorem set_mode_default_frequency (s : State) (dev : Reg → Nat) (mn mx d st : Nat)
    (hd : d < 2 ^ 32) :
    getFrequency (setAM s dev mn mx d st).1 = d ∧
    (setAM s dev mn mx d st).2.drop 2 = [BusOp.write (RegWrite.amchan 1 d)] ∧
    getFrequency (setFM s dev mn mx d st).1 = d ∧
    (setFM s dev mn mx d st).2.drop 2 = [BusOp.write (RegWrite.tune 1 (d / 50))] := by
  have e : u32 d = d := by
    unfold u32
    omega
  refine ⟨?_, ?_, ?_, ?_⟩ <;>
    simp [setAM, setFM, setFrequency, getFrequency, tuneWrite, e]

/-- C4 witness: the default frequency contract at concrete values. -/
theorem set_mode_default_frequency_witness :
    getFrequency (setAM
      { deviceAddress := 0, resetPin := -1, currentMode := Mode.fm,
        currentFrequency := 0, currentStep := 0, minimumFrequency := 0,
        maximumFrequency := 0, currentDialMode := DialMode.off }
      (fun _ => 0) 520 1710 810 10).1 = 810 ∧
    (setFM
      { deviceAddress := 0, resetPin := -1, currentMode := Mode.fm,
        currentFrequency := 0, currentStep := 0, minimumFrequency := 0,
        maximumFrequency := 0, currentDialMode := DialMode.off }
      (fun _ => 0) 8400 10800 10390 10).2.drop 2 =
      [BusOp.write (RegWrite.tune 1 207)] := by
  refine ⟨(set_mode_default_frequency
    { deviceAddress := 0, resetPin := -1, currentMode := Mode.fm,
      currentFrequency := 0, currentStep := 0, minimumFrequency := 0,
      maximumFrequency := 0, currentDialMode := DialMode.off }
    (fun _ => 0) 520 1710 810 10 (by decide)).1,
    (set_mode_default_frequency
    { deviceAddress := 0, resetPin := -1, currentMode := Mode.fm,
      currentFrequency := 0, currentStep := 0, minimumFrequency := 0,
      maximumFrequency := 0, currentDialMode := DialMode.off }
    (fun _ => 0) 8400 10800 10390 10 (by decide)).2.2.2⟩

/-- C5: setTuneDialModeOn writes the user-band registers with the
mode-dependent encoding: under AM the start channel is min, the guard value
is 0x0011 and the channel count is (max - min) / step; under FM the start
channel is min / 50, the guard value is 0x001D and the channel count is
((max - min) / 50) / step, all with integer division by the current
step. -/
theorem tune_dial_band_encoding (s : State) (dev : Reg → Nat) (mn mx : Nat)
    (hmn : mn < 2 ^ 32) (hmx : mx < 2 ^ 32) (hle : mn ≤ mx)
    (hst : 0 < u16 s.currentStep) :
    (s.currentMode = Mode.am →
      (setTuneDialModeOn s dev mn mx).2.drop 4 =
        [BusOp.write (RegWrite.userstartch mn),
         BusOp.write (RegWrite.userguard 0x0011),
         BusOp.write (RegWrite.userchannum ((mx - mn) / u16 s.currentStep))]) ∧
    (s.currentMode = Mode.fm →
      (setTuneDialModeOn s dev mn mx).2.drop 4 =
        [BusOp.write (RegWrite.userstartch (mn / 50)),
         BusOp.write (RegWrite.userguard 0x001D),
         BusOp.write (RegWrite.userchannum ((mx - mn) / 50 / u16 s.currentStep))]) := by
  have e1 : u32 mn = mn := by
    unfold u32
    omega
  have e3 : u32 mx = mx := by
    unfold u32
    omega
  have e4 : u32 (mx + (2 ^ 32 - mn)) = mx - mn := by
    unfold u32
    omega
  have e5 : u32 (mx + (4294967296 - mn)) = mx - mn := e4
  constructor <;> intro h <;>
    simp [setTuneDialModeOn, h, e1, e3, e4, e5]

/-- C5 witness: the AM literal example, band 520 to 1710 with step 10
yields channel count 119, start channel 520 and guard 0x0011. -/
theorem tune_dial_band_encoding_witness :
    (setTuneDialModeOn
      { deviceAddress := 0, resetPin := -1, currentMode := Mode.am,
        currentFrequency := 1000, currentStep := 10, minimumFrequency := 520,
        maximumFrequency := 1710, currentDialMode := DialMode.off }
      (fun _ => 0) 520 1710).2.drop 4 =
      [BusOp.write (RegWrite.userstartch 520),
       BusOp.write (RegWrite.userguard 0x0011),
       BusOp.write (RegWrite.userchannum 119)] := by
  have h := (tune_dial_band_encoding
    { deviceAddress := 0, resetPin := -1, currentMode := Mode.am,
      currentFrequency := 1000, currentStep := 10, minimumFrequency := 520,
      maximumFrequency := 1710, currentDialMode := DialMode.off }
    (fun _ => 0) 520 1710
    (by decide) (by decide) (by decide) (by decide)).1 rfl
  rw [h]
  decide

end KT0915
